import Mathlib

/-!
Verification of the credential-store module (`quantuminspire/credentials.py`).

The module persists an authentication token in a JSON resource file and in a
process environment variable. We shallowly embed its operations:

* the credential file is modelled by `FileContent`, the observable outcome of
  opening and JSON-parsing the file, matching the exception branches of
  `read_account` (`OSError` for a missing/unreadable file, `ValueError` for
  invalid JSON, `KeyError` for a missing `token` field, or a successfully
  extracted string token);
* the file system is a path-indexed association list `FS.files` plus the set
  `FS.madeDirs` of filenames whose parent directories have been created by
  `os.makedirs`;
* the process environment is `Env`, holding the value of the `QI_TOKEN`
  variable;
* the exact bytes `json.dump({'token': token}, f, indent=2)` writes are
  modelled by `pyJsonDumpFlat`, following CPython's `json` encoder for a flat
  string-valued object (default separators, `ensure_ascii=True`).

All functions are total; Python exceptions that the source catches are turned
into ordinary values, and the source catches every exception its file reads
can raise on the modelled states.
-/

/-- Observable outcome of opening and JSON-parsing the credential file, one
constructor per branch of `read_account`'s `try/except`. -/
inductive FileContent where
  | missing
  | ioError
  | invalidJson
  | noTokenKey
  | tokenFile (t : String)
deriving DecidableEq

/-- File-system state: a path-indexed store of file contents (later writes
shadow earlier ones) and the filenames whose parent directories exist. -/
structure FS where
  files : List (String × FileContent)
  madeDirs : List String
deriving DecidableEq

/-- Process environment, restricted to the one variable the module touches:
`QI_TOKEN` (`none` when the variable is unset). -/
structure Env where
  qi_token : Option String
deriving DecidableEq

/-- Look a filename up in the file store; an absent entry is a missing file. -/
def findFile : List (String × FileContent) → String → FileContent
  | [], _ => FileContent.missing
  | (k, c) :: rest, f => if k = f then c else findFile rest f

/-- `DEFAULT_QIRC_FILE`: `os.path.join(os.path.expanduser("~"), '.quantuminspire', 'qirc')`,
parameterised by the user's home directory. -/
def DEFAULT_QIRC_FILE (home : String) : String :=
  home ++ "/.quantuminspire/qirc"

/-- `read_account(filename)`: open the file, parse JSON, extract `token`;
every caught exception yields `token = None`; finally
`return token if (token and len(token)) else None` normalises the empty
string to `None`. -/
def read_account (fs : FS) (filename : String) : Option String :=
  let token : Option String :=
    match findFile fs.files filename with
    | FileContent.tokenFile t => some t
    | _ => none
  match token with
  | some t => if t = "" then none else some t
  | none => none

/-- `load_account(filename)`:
`os.environ.get('QI_TOKEN', None) or read_account(filename)` — Python's `or`
takes the environment value when it is truthy (set and non-empty), otherwise
the file value. -/
def load_account (env : Env) (fs : FS) (filename : String) : Option String :=
  match env.qi_token with
  | some t => if t = "" then read_account fs filename else some t
  | none => read_account fs filename

/-- `save_account(token, filename)`: `os.makedirs(os.path.dirname(filename),
exist_ok=True)` then write `{'token': token}` to the file. -/
def save_account (token filename : String) (fs : FS) : FS :=
  { files := (filename, FileContent.tokenFile token) :: fs.files,
    madeDirs := filename :: fs.madeDirs }

/-- `store_account(token, filename, overwrite)`: read the stored token first;
`if stored_token and stored_token != token and not overwrite` warn and return,
else `save_account`. The second component records whether the warning was
emitted. -/
def store_account (token filename : String) (overwrite : Bool) (fs : FS) :
    FS × Bool :=
  match read_account fs filename with
  | some st =>
      if st ≠ "" ∧ st ≠ token ∧ overwrite = false then (fs, true)
      else (save_account token filename fs, false)
  | none => (save_account token filename fs, false)

/-- `delete_account(token, filename)`: `if read_account(filename) == token:
save_account('', filename)` — in Python `None == token` is `False` for a
string `token`, so the comparison is `some`-to-`some` equality. -/
def delete_account (token filename : String) (fs : FS) : FS :=
  if read_account fs filename = some token then save_account "" filename fs
  else fs

/-- `enable_account(token)`: `os.environ['QI_TOKEN'] = token`, overwriting any
previous value for the rest of the process. -/
def enable_account (token : String) (_env : Env) : Env :=
  { qi_token := some token }

/-- Hexadecimal digit used by CPython's `'\u%04x'` formatting (lowercase). -/
def hexDig (n : Nat) : Char :=
  if n < 10 then Char.ofNat (48 + n) else Char.ofNat (87 + n)

/-- A `\uXXXX` escape for one UTF-16 code unit. -/
def uEsc (n : Nat) : String :=
  String.mk ['\\', 'u', hexDig (n / 4096 % 16), hexDig (n / 256 % 16),
             hexDig (n / 16 % 16), hexDig (n % 16)]

/-- Escape one character the way CPython's `json` ASCII encoder does:
named escapes for `"` `\` and control characters with short forms, `\uXXXX`
for other control characters and all non-ASCII characters (surrogate pairs
above the BMP). -/
def escapeChar (c : Char) : String :=
  if c = '"' then "\\\""
  else if c = '\\' then "\\\\"
  else if c = '\n' then "\\n"
  else if c = '\r' then "\\r"
  else if c = '\t' then "\\t"
  else if c.toNat = 8 then "\\b"
  else if c.toNat = 12 then "\\f"
  else if c.toNat < 32 then uEsc c.toNat
  else if c.toNat ≤ 126 then String.singleton c
  else if c.toNat < 65536 then uEsc c.toNat
  else uEsc (55296 + (c.toNat - 65536) / 1024) ++
       uEsc (56320 + (c.toNat - 65536) % 1024)

/-- CPython's `json.encoder.py_encode_basestring_ascii`: the JSON string
literal for `s`. -/
def py_encode_basestring_ascii (s : String) : String :=
  "\"" ++ String.join (s.data.map escapeChar) ++ "\""

/-- `indent` spaces, as written by `json.dump(..., indent=n)`. -/
def pyIndent (n : Nat) : String := String.mk (List.replicate n ' ')

/-- Join items with a separator, as the encoder's item loop does. -/
def joinSep (sep : String) : List String → String
  | [] => ""
  | [x] => x
  | x :: y :: rest => x ++ sep ++ joinSep sep (y :: rest)

/-- CPython's `json.dump` output for a flat dict of strings with an integer
`indent`: `\x7b\x7d` when empty, otherwise the opening brace, a newline plus
deeper indent, the `key: value` items joined by `,` plus that newline-indent,
then a newline, the current indent and the closing brace (default separators
`(',', ': ')`). -/
def pyJsonDumpFlat (width level : Nat) (fields : List (String × String)) :
    String :=
  match fields with
  | [] => "\x7b\x7d"
  | _ =>
    let nl := "\n" ++ pyIndent (width * (level + 1))
    let items := fields.map
      (fun kv => py_encode_basestring_ascii kv.1 ++ ": " ++
                 py_encode_basestring_ascii kv.2)
    "\x7b" ++ nl ++ joinSep ("," ++ nl) items ++ "\n" ++
      pyIndent (width * level) ++ "\x7d"

/-- The exact file content `save_account` writes:
`json.dump({'token': token}, config_file, indent=2)`. -/
def save_account_bytes (token : String) : String :=
  pyJsonDumpFlat 2 0 [("token", token)]

/-- The file layout the specification describes (written from the spec's
words, to be compared with `save_account_bytes`): a JSON object whose single
top-level key `token` maps to the given token, pretty-printed with 2-space
indentation. -/
def specCredentialFileShape (token : String) : String :=
  "\x7b\n  \"token\": " ++ py_encode_basestring_ascii token ++ "\n\x7d"

/-- `coreapi.auth.TokenAuthentication(token, scheme=...)`: an opaque bundle of
the token and the scheme. -/
structure TokenAuthentication where
  token : Option String
  scheme : String
deriving DecidableEq

/-- `get_token_authentication(token=None)`: `if not token: token =
load_account()` (Python falsiness: `None` or the empty string), then
`TokenAuthentication(token, scheme="token")`. -/
def get_token_authentication (env : Env) (fs : FS) (home : String)
    (token : Option String) : TokenAuthentication :=
  let resolved : Option String :=
    match token with
    | none => load_account env fs (DEFAULT_QIRC_FILE home)
    | some t =>
        if t = "" then load_account env fs (DEFAULT_QIRC_FILE home)
        else some t
  { token := resolved, scheme := "token" }

/-- Strings with equal character data are equal. -/
theorem string_data_ext (a b : String) (h : a.data = b.data) : a = b := by
  cases a
  cases b
  exact congrArg String.mk h

/-- Character data of an append is the append of the character data. -/
theorem string_data_append (a b : String) :
    (a ++ b).data = a.data ++ b.data := by
  cases a
  cases b
  rfl

/-- C1: after `save_account T p`, `read_account p` returns `T` for non-empty
`T`; after `save_account "" p`, `read_account p` returns `none` (the empty
string is normalised to the absent value). -/
theorem save_read_roundtrip (T p : String) (fs : FS) (hT : T ≠ "") :
    read_account (save_account T p fs) p = some T ∧
    read_account (save_account "" p fs) p = none := by
  constructor
  · simp [read_account, save_account, findFile, hT]
  · simp [read_account, save_account, findFile]

/-- C1 witness: the round trip at the concrete token `"x"` and path `"p"`
from the empty file system. -/
theorem save_read_roundtrip_witness :
    read_account (save_account "x" "p" ⟨[], []⟩) "p" = some "x" ∧
    read_account (save_account "" "p" ⟨[], []⟩) "p" = none :=
  save_read_roundtrip "x" "p" ⟨[], []⟩ (by decide)

/-- C2 counterexample: the claim quantifies over every token `T`, but for
`T = ""` the session override does not win — `enable_account("")` sets
`QI_TOKEN` to the empty string, which is falsy under Python's `or`, so
`load_account` falls back to the file and returns its token `"abc"`, not
`""`. -/
theorem enable_empty_load_counterexample :
    load_account (enable_account "" ⟨none⟩)
        ⟨[("p", FileContent.tokenFile "abc")], []⟩ "p" = some "abc" ∧
    load_account (enable_account "" ⟨none⟩)
        ⟨[("p", FileContent.tokenFile "abc")], []⟩ "p" ≠ some "" := by
  constructor
  · rfl
  · decide

/-- C2 (amended): for every NON-EMPTY token `T`, after `enable_account T`,
`load_account` returns `T` regardless of the file contents; when the override
is unset, `load_account` falls back to `read_account`. -/
theorem enable_load_precedence (T : String) (env : Env) (fs : FS) (p : String)
    (hT : T ≠ "") :
    load_account (enable_account T env) fs p = some T ∧
    load_account ⟨none⟩ fs p = read_account fs p := by
  constructor
  · simp [load_account, enable_account, hT]
  · simp [load_account]

/-- C2 witness: enabling the concrete token `"xyz"` wins over a file that
holds `"abc"`. -/
theorem enable_load_precedence_witness :
    load_account (enable_account "xyz" ⟨none⟩)
        ⟨[("p", FileContent.tokenFile "abc")], []⟩ "p" = some "xyz" ∧
    load_account ⟨none⟩ ⟨[("p", FileContent.tokenFile "abc")], []⟩ "p" =
      read_account ⟨[("p", FileContent.tokenFile "abc")], []⟩ "p" :=
  enable_load_precedence "xyz" ⟨none⟩ ⟨[("p", FileContent.tokenFile "abc")], []⟩
    "p" (by decide)

/-- C3: if the file at `p` holds a non-empty token `T1` and `T2 ≠ T1`, then
`store_account T2 p` with `overwrite = false` warns and aborts: the state is
unchanged, the warning flag is `true`, and the file still reads as `T1` (the
function is total, so no exception is raised). -/
theorem store_overwrite_protection (T1 T2 p : String) (fs : FS)
    (h1 : T1 ≠ "") (h12 : T1 ≠ T2)
    (hfile : findFile fs.files p = FileContent.tokenFile T1) :
    store_account T2 p false fs = (fs, true) ∧
    read_account (store_account T2 p false fs).1 p = some T1 := by
  have hread : read_account fs p = some T1 := by
    simp [read_account, hfile, h1]
  have habort : store_account T2 p false fs = (fs, true) := by
    simp [store_account, hread, h1, h12]
  exact ⟨habort, by simp [habort, hread]⟩

/-- C3 witness: storing `"b"` without overwrite onto a file that holds `"a"`
aborts with a warning and leaves the file reading `"a"`. -/
theorem store_overwrite_protection_witness :
    store_account "b" "p" false ⟨[("p", FileContent.tokenFile "a")], []⟩ =
      (⟨[("p", FileContent.tokenFile "a")], []⟩, true) ∧
    read_account
        (store_account "b" "p" false
          ⟨[("p", FileContent.tokenFile "a")], []⟩).1 "p" = some "a" :=
  store_overwrite_protection "a" "b" "p"
    ⟨[("p", FileContent.tokenFile "a")], []⟩ (by decide) (by decide) (by decide)

/-- C4: on every failing file state — missing file, I/O error, invalid JSON,
missing `token` field, or an empty-string token — `read_account` returns
`none`; being a total function, it raises nothing. -/
theorem read_account_total_silent (fs : FS) (p : String)
    (h : findFile fs.files p = FileContent.missing ∨
         findFile fs.files p = FileContent.ioError ∨
         findFile fs.files p = FileContent.invalidJson ∨
         findFile fs.files p = FileContent.noTokenKey ∨
         findFile fs.files p = FileContent.tokenFile "") :
    read_account fs p = none := by
  rcases h with h | h | h | h | h <;> simp [read_account, h]

/-- C4 witness: reading a path with no file present returns `none`. -/
theorem read_account_total_silent_witness :
    read_account ⟨[], []⟩ "p" = none :=
  read_account_total_silent ⟨[], []⟩ "p" (Or.inl (by decide))

/-- C5: `delete_account` overwrites the file with the empty token exactly when
the token read from the file equals the given token, and is the identity
otherwise (silent no-op); hence `save T; delete T` makes a subsequent read
return `none`, while `save T1; delete T2` with `T1 ≠ T2` leaves the file
holding `T1`. -/
theorem delete_account_spec (T T1 T2 p : String) (fs : FS) (h12 : T1 ≠ T2) :
    (read_account fs p = some T →
      delete_account T p fs = save_account "" p fs) ∧
    (read_account fs p ≠ some T → delete_account T p fs = fs) ∧
    read_account (delete_account T p (save_account T p fs)) p = none ∧
    findFile (delete_account T2 p (save_account T1 p fs)).files p =
      FileContent.tokenFile T1 := by
  refine ⟨fun h => by simp [delete_account, h],
          fun h => by simp [delete_account, h], ?_, ?_⟩
  · by_cases hT : T = ""
    · subst hT
      have hr : read_account (save_account "" p fs) p = none := by
        simp [read_account, save_account, findFile]
      simp [delete_account, hr]
    · have hr : read_account (save_account T p fs) p = some T := by
        simp [read_account, save_account, findFile, hT]
      simp [delete_account, hr]
      simp [read_account, save_account, findFile]
  · by_cases hT1 : T1 = ""
    · subst hT1
      have hr : read_account (save_account "" p fs) p = none := by
        simp [read_account, save_account, findFile]
      simp [delete_account, hr]
      simp [save_account, findFile]
    · have hr : read_account (save_account T1 p fs) p = some T1 := by
        simp [read_account, save_account, findFile, hT1]
      simp [delete_account, hr, h12]
      simp [save_account, findFile]

/-- C5 witness: the deletion laws at token `"x"` and the mismatched pair
`"a"`, `"b"`, from the empty file system. -/
theorem delete_account_spec_witness :
    (read_account ⟨[], []⟩ "p" = some "x" →
      delete_account "x" "p" ⟨[], []⟩ = save_account "" "p" ⟨[], []⟩) ∧
    (read_account ⟨[], []⟩ "p" ≠ some "x" →
      delete_account "x" "p" ⟨[], []⟩ = ⟨[], []⟩) ∧
    read_account (delete_account "x" "p" (save_account "x" "p" ⟨[], []⟩)) "p" =
      none ∧
    findFile (delete_account "b" "p" (save_account "a" "p" ⟨[], []⟩)).files
      "p" = FileContent.tokenFile "a" :=
  delete_account_spec "x" "a" "b" "p" ⟨[], []⟩ (by decide)

/-- C6: `store_account T2 p` with `overwrite = true` always writes, so after
`store T1; store T2 (overwrite := true)` the file holds `T2`. -/
theorem store_overwrite_true_wins (T1 T2 p : String) (fs : FS) :
    findFile (store_account T2 p true
      (store_account T1 p false fs).1).1.files p =
      FileContent.tokenFile T2 := by
  have hsave : ∀ g : FS,
      store_account T2 p true g = (save_account T2 p g, false) := by
    intro g
    cases hr : read_account g p with
    | none => simp [store_account, hr]
    | some st => simp [store_account, hr]
  simp [hsave, save_account, findFile]

/-- C7: `save_account T p` sets the file at `p` to the token file for `T`,
writes exactly the bytes the spec describes — a JSON object whose single key
`token` maps to `T`, pretty-printed with 2-space indentation — and creates
the parent directories of `p`. -/
theorem save_account_layout (T p : String) (fs : FS) :
    findFile (save_account T p fs).files p = FileContent.tokenFile T ∧
    save_account_bytes T = specCredentialFileShape T ∧
    p ∈ (save_account T p fs).madeDirs := by
  refine ⟨by simp [save_account, findFile], ?_, by simp [save_account]⟩
  apply string_data_ext
  simp only [save_account_bytes, specCredentialFileShape, pyJsonDumpFlat,
    joinSep, List.map, string_data_append, List.append_assoc]
  rfl

/-- C8: `get_token_authentication` always returns a descriptor with scheme
`"token"`; with an absent token it carries the token resolved by
`load_account` at the default resource file; a given non-empty token is
carried through unvalidated and unchanged. -/
theorem get_token_authentication_spec (env : Env) (fs : FS) (home : String)
    (tok : Option String) :
    (get_token_authentication env fs home tok).scheme = "token" ∧
    (get_token_authentication env fs home none).token =
      load_account env fs (DEFAULT_QIRC_FILE home) ∧
    (∀ t : String, t ≠ "" →
      (get_token_authentication env fs home (some t)).token = some t) := by
  refine ⟨?_, by simp [get_token_authentication], ?_⟩
  · cases tok with
    | none => simp [get_token_authentication]
    | some t => simp [get_token_authentication]
  · intro t ht
    simp [get_token_authentication, ht]

/-- C8 witness: a given concrete token is carried through, and with no token
given the descriptor carries the `load_account` result and scheme
`"token"`. -/
theorem get_token_authentication_spec_witness :
    (get_token_authentication ⟨none⟩ ⟨[], []⟩ "h" (some "tok")).token =
      some "tok" :=
  (get_token_authentication_spec ⟨none⟩ ⟨[], []⟩ "h" (some "tok")).2.2 "tok"
    (by decide)

/-- C9: when the session override is set to the empty string, `load_account`
does not return it but falls back to `read_account` — the empty override
never wins over the file tier. -/
theorem load_empty_override_falls_back (env : Env) (fs : FS) (p : String) :
    load_account (enable_account "" env) fs p = read_account fs p := by
  simp [load_account, enable_account]

/-- C10: with `overwrite = false`, `store_account T p` proceeds to write
whenever the token read from the file is absent (covering a missing, empty
or malformed file) or exactly equal to `T`; in particular re-storing the same
token is never blocked and emits no warning. -/
theorem store_proceeds_when_no_conflict (T p : String) (fs : FS)
    (h : read_account fs p = none ∨ read_account fs p = some T) :
    store_account T p false fs = (save_account T p fs, false) := by
  rcases h with h | h <;> simp [store_account, h]

/-- C10 witness: storing `"a"` on a fresh file system writes without a
warning. -/
theorem store_proceeds_when_no_conflict_witness :
    store_account "a" "p" false ⟨[], []⟩ =
      (save_account "a" "p" ⟨[], []⟩, false) :=
  store_proceeds_when_no_conflict "a" "p" ⟨[], []⟩ (Or.inl (by decide))
